import Mathlib

/-!
Shallow embedding of the oxymeal/smpp-server repository (Python) in Lean 4,
used to settle the claims of the specification against the code.

Conventions:
 * Python `bytes`/`bytearray` values are `List Nat` (each element a byte value).
 * Python `str` values are Lean `String` (the code only ever decodes ASCII).
 * A Python function that can raise returns `Except PyErr α`; the `PyErr`
   constructors name the Python exception classes that can escape.
 * Machine integers are `Nat`; struct packing applies the 2^32 / 2^8 bounds
   checks exactly where `struct.pack` would raise.
-/

namespace Smpp

/-- The Python exception kinds that the embedded code can raise.
`unpackingError` is `parse.UnpackingError`, `packingError` is
`parse.PackingError`; the remaining constructors are built-in Python
exceptions raised by slips in the source (`NameError` from an undefined
variable, `struct.error`, the bare `ValueError` raised by `Command(cid)`
for an unknown id, `TypeError`, `NotImplementedError`,
`UnicodeDecodeError` from `.decode('ascii')`, and an exception escaping
`provider.deliver`). -/
inductive PyErr where
  | unpackingError
  | packingError
  | structError
  | enumValueError
  | nameError
  | typeError
  | valueError
  | notImplementedError
  | unicodeDecodeError
  | providerError
  deriving DecidableEq, Repr

/-- Wire data: a Python `bytearray`, one `Nat` per byte. -/
abbrev Bytes := List Nat

/-- Big-endian value of a byte list (used for the `!I` reads of `struct.unpack`). -/
def beVal (bs : Bytes) : Nat := bs.foldl (fun a b => a * 256 + b) 0

/-- Big-endian 4-byte encoding of `n` (`struct.pack("!I", n)` for in-range `n`). -/
def u32be (n : Nat) : Bytes :=
  [n / 2 ^ 24 % 256, n / 2 ^ 16 % 256, n / 2 ^ 8 % 256, n % 256]

/-- `bytes.decode('ascii')`: succeeds exactly when every byte is < 128,
raising `UnicodeDecodeError` otherwise. -/
def decodeAscii (bs : Bytes) : Except PyErr String :=
  if bs.all (· < 128) then .ok (String.mk (bs.map Char.ofNat)) else .error .unicodeDecodeError

/-- `str.encode('ascii')` for the strings handled by the codec (all ASCII). -/
def encodeAscii (s : String) : Bytes := s.data.map Char.toNat

/-- `parse.unpack_coctet_string`: scans for the NUL terminator, decodes the
prefix as ASCII and returns it with the remaining bytes; raises
`UnpackingError` when no NUL byte is found. -/
def splitAtNul : Bytes → Except PyErr (Bytes × Bytes)
  | [] => .error .unpackingError
  | b :: rest =>
    if b = 0 then .ok ([], rest)
    else do
      let (p, r) ← splitAtNul rest
      .ok (b :: p, r)

def unpack_coctet_string (bs : Bytes) : Except PyErr (String × Bytes) := do
  let (p, r) ← splitAtNul bs
  let s ← decodeAscii p
  .ok (s, r)

/-- `parse._pack_str`.  The body of the source function reads
`input_str = st.encode('ascii')` where the name `st` is not defined
anywhere in the module, so every call raises `NameError` before the
length check is reached. -/
def pack_str (_input_str : String) (_max_size : Nat) : Except PyErr Bytes :=
  .error .nameError

/-- The length/NUL logic that follows the broken first line of
`parse._pack_str`: appends the NUL terminator and raises `PackingError`
when the terminated string exceeds `max_size` bytes.  This is the
behaviour of the rest of that function, kept separately so that the
intended boundary checks can be stated. -/
def pack_str_rest (input_str : String) (max_size : Nat) : Except PyErr Bytes :=
  let b := encodeAscii input_str ++ [0]
  if b.length > max_size then .error .packingError else .ok b

/-- `parse._pack_fmt` for an all-`B` format of `count` slots: `struct.pack`
raises `struct.error` (re-raised as `PackingError`) when the argument
count disagrees with the format or a value does not fit in one byte. -/
def pack_fmtB (count : Nat) (args : List Nat) : Except PyErr Bytes :=
  if args.length = count ∧ args.all (· < 256) then .ok args else .error .packingError

/-- `parse._unpack_fmt` for the `'!BB'` format.  The source checks
`len(bs) <= size` (rather than `<`), so at least three bytes must remain. -/
def unpack_fmtB2 : Bytes → Except PyErr ((Nat × Nat) × Bytes)
  | a :: b :: c :: rest => .ok ((a, b), c :: rest)
  | _ => .error .unpackingError

/-- `parse._unpack_fmt` for the `'!B'` format (needs at least two bytes). -/
def unpack_fmtB1 : Bytes → Except PyErr (Nat × Bytes)
  | a :: b :: rest => .ok (a, b :: rest)
  | _ => .error .unpackingError

/-- `parse._unpack_fmt` for the `'!BBB'` format (needs at least four bytes). -/
def unpack_fmtB3 : Bytes → Except PyErr ((Nat × Nat × Nat) × Bytes)
  | a :: b :: c :: d :: rest => .ok ((a, b, c), d :: rest)
  | _ => .error .unpackingError

/-- `parse._unpack_fmt` for the `'!BBBBB'` format (needs at least six bytes). -/
def unpack_fmtB5 : Bytes → Except PyErr ((Nat × Nat × Nat × Nat × Nat) × Bytes)
  | a :: b :: c :: d :: e :: f :: rest => .ok ((a, b, c, d, e), f :: rest)
  | _ => .error .unpackingError

/-- `parse._unpack_octet_string`: Python slicing never fails, so a short
buffer just yields a short string. -/
def unpack_octet_string (bs : Bytes) (sm_length : Nat) : Except PyErr (String × Bytes) := do
  let s ← decodeAscii (bs.take sm_length)
  .ok (s, bs.drop sm_length)

/-! Command ids (`parse.Command`) and the command-status constants used by
the server. -/

def CID_GENERIC_NACK : Nat := 0x80000000
def CID_BIND_RECEIVER : Nat := 0x00000001
def CID_BIND_RECEIVER_RESP : Nat := 0x80000001
def CID_BIND_TRANSMITTER : Nat := 0x00000002
def CID_BIND_TRANSMITTER_RESP : Nat := 0x80000002
def CID_QUERY_SM : Nat := 0x00000003
def CID_QUERY_SM_RESP : Nat := 0x80000003
def CID_SUBMIT_SM : Nat := 0x00000004
def CID_SUBMIT_SM_RESP : Nat := 0x80000004
def CID_DELIVER_SM : Nat := 0x00000005
def CID_DELIVER_SM_RESP : Nat := 0x80000005
def CID_UNBIND : Nat := 0x00000006
def CID_UNBIND_RESP : Nat := 0x80000006
def CID_REPLACE_SM : Nat := 0x00000007
def CID_REPLACE_SM_RESP : Nat := 0x80000007
def CID_CANCEL_SM : Nat := 0x00000008
def CID_CANCEL_SM_RESP : Nat := 0x80000008
def CID_BIND_TRANSCEIVER : Nat := 0x00000009
def CID_BIND_TRANSCEIVER_RESP : Nat := 0x80000009
def CID_ENQUIRE_LINK : Nat := 0x00000015
def CID_ENQUIRE_LINK_RESP : Nat := 0x80000015
def CID_SUBMIT_MULTI : Nat := 0x00000021
def CID_SUBMIT_MULTI_RESP : Nat := 0x80000021
def CID_DATA_SM : Nat := 0x00000103
def CID_DATA_SM_RESP : Nat := 0x80000103

/-- The list of `command_id` values of `parse.Command` (excluding the
sentinel `UNDEFINED = -1`); `parse._COMMAND_CLASSES` has exactly these keys. -/
def knownCids : List Nat :=
  [CID_GENERIC_NACK, CID_BIND_RECEIVER, CID_BIND_RECEIVER_RESP,
   CID_BIND_TRANSMITTER, CID_BIND_TRANSMITTER_RESP, CID_QUERY_SM,
   CID_QUERY_SM_RESP, CID_SUBMIT_SM, CID_SUBMIT_SM_RESP, CID_DELIVER_SM,
   CID_DELIVER_SM_RESP, CID_UNBIND, CID_UNBIND_RESP, CID_REPLACE_SM,
   CID_REPLACE_SM_RESP, CID_CANCEL_SM, CID_CANCEL_SM_RESP,
   CID_BIND_TRANSCEIVER, CID_BIND_TRANSCEIVER_RESP, CID_ENQUIRE_LINK,
   CID_ENQUIRE_LINK_RESP, CID_SUBMIT_MULTI, CID_SUBMIT_MULTI_RESP,
   CID_DATA_SM, CID_DATA_SM_RESP]

def COMMAND_STATUS_ESME_ROK : Nat := 0x00000000
def COMMAND_STATUS_ESME_RINVBNDSTS : Nat := 0x00000004
def COMMAND_STATUS_ESME_RINVPASWD : Nat := 0x0000000E
def COMMAND_STATUS_ESME_RUNKNOWNERR : Nat := 0x000000FF

/-- The `command_status` / `sequence_number` pair carried by every PDU
header (`command_length` and `command_id` are computed properties). -/
structure Header where
  commandStatus : Nat := 0
  sequenceNumber : Nat := 0
  deriving DecidableEq, Repr

/-- `PDU._unpack_header` for a class with command id `cid`:
`struct.unpack("!IIII", bs[:16])` raises `struct.error` when fewer than
16 bytes are available; then the declared size must equal the buffer
length and the command id must match, else `UnpackingError`. -/
def unpack_header (cid : Nat) (bs : Bytes) : Except PyErr (Header × Bytes) :=
  if bs.length < 16 then .error .structError
  else
    let ps := beVal (bs.take 4)
    let c := beVal ((bs.drop 4).take 4)
    let cs := beVal ((bs.drop 8).take 4)
    let sn := beVal ((bs.drop 12).take 4)
    if bs.length ≠ ps then .error .unpackingError
    else if cid ≠ c then .error .unpackingError
    else .ok (⟨cs, sn⟩, bs.drop 16)

/-- `PDU._pack_header`: `struct.pack("!IIII", ...)` raises `struct.error`
when a field does not fit in 32 bits. -/
def pack_header (commandLength cid : Nat) (h : Header) : Except PyErr Bytes :=
  if commandLength < 2 ^ 32 ∧ cid < 2 ^ 32 ∧ h.commandStatus < 2 ^ 32 ∧
      h.sequenceNumber < 2 ^ 32 then
    .ok (u32be commandLength ++ u32be cid ++ u32be h.commandStatus ++
      u32be h.sequenceNumber)
  else .error .structError

/-! PDU field records.  Each mirrors the `__init__` of the corresponding
class in `src/smpp/parse.py`; the three bind requests and the three bind
responses have identical field sets and share a record, distinguished by
the `PDU` constructor. -/

/-- Fields of `BindReceiver` / `BindTransmitter` / `BindTransceiver`. -/
structure Bind where
  commandStatus : Nat := 0
  sequenceNumber : Nat := 0
  systemId : String := ""
  password : String := ""
  systemType : String := ""
  interfaceVersion : Nat := 0
  addrTon : Nat := 0
  addrNpi : Nat := 0
  addressRange : String := ""
  deriving DecidableEq, Repr

/-- Fields of `BindReceiverResp` / `BindTransmitterResp` / `BindTransceiverResp`. -/
structure BindResp where
  commandStatus : Nat := 0
  sequenceNumber : Nat := 0
  systemId : String := ""
  deriving DecidableEq, Repr

/-- Fields of `SubmitSm` (`src/smpp/parse.py:490`). -/
structure SubmitSm where
  commandStatus : Nat := 0
  sequenceNumber : Nat := 0
  serviceType : String := ""
  sourceAddrTon : Nat := 0
  sourceAddrNpi : Nat := 0
  sourceAddr : String := ""
  destAddrTon : Nat := 0
  destAddrNpi : Nat := 0
  destinationAddr : String := ""
  esmClass : Nat := 0
  protocolId : Nat := 0
  priorityFlag : Nat := 0
  scheduleDeliveryTime : String := ""
  validityPeriod : String := ""
  registeredDelivery : Nat := 0
  replaceIfPresentFlag : Nat := 0
  dataCoding : Nat := 0
  smDefaultMsgId : Nat := 0
  smLength : Nat := 0
  shortMessage : String := ""
  deriving DecidableEq, Repr

/-- Fields of `SubmitSmResp`. -/
structure SubmitSmResp where
  commandStatus : Nat := 0
  sequenceNumber : Nat := 0
  messageId : String := ""
  deriving DecidableEq, Repr

/-- Fields of `DeliverSm` (`src/smpp/parse.py:784`).  The class `__init__`
declares only the address fields; `esm_class` and `short_message` are
attributes attached dynamically by `Dispatcher._store_and_forward`
(`src/smpp/messaging.py:110,143`), so they appear here with the Python
attribute-absent state modelled as the 0 / "" defaults. -/
structure DeliverSm where
  commandStatus : Nat := 0
  sequenceNumber : Nat := 0
  serviceType : String := ""
  sourceAddrTon : Nat := 0
  sourceAddrNpi : Nat := 0
  sourceAddr : String := ""
  destAddrTon : Nat := 0
  destAddrNpi : Nat := 0
  destinationAddr : String := ""
  esmClass : Nat := 0
  shortMessage : String := ""
  deriving DecidableEq, Repr

/-- The PDU sum type: one constructor per `parse` class that `unpack_pdu`
can return a value of, plus the server-built outbound classes
(`SubmitSmResp`, `DeliverSm`, the bind responses). -/
inductive PDU where
  | genericNack (h : Header)
  | enquireLink (h : Header)
  | enquireLinkResp (h : Header)
  | unbind (h : Header)
  | unbindResp (h : Header)
  | bindReceiver (p : Bind)
  | bindTransmitter (p : Bind)
  | bindTransceiver (p : Bind)
  | bindReceiverResp (p : BindResp)
  | bindTransmitterResp (p : BindResp)
  | bindTransceiverResp (p : BindResp)
  | submitSm (p : SubmitSm)
  | submitSmResp (p : SubmitSmResp)
  | deliverSm (p : DeliverSm)
  | dataSm (h : Header) (serviceType : String) (sourceAddrTon sourceAddrNpi : Nat)
      (sourceAddr : String) (destAddrTon destAddrNpi : Nat) (destinationAddr : String)
      (esmClass registeredDelivery dataCoding : Nat)
  | querySm (h : Header) (messageId : String) (sourceAddrTon sourceAddrNpi : Nat)
      (sourceAddr : String)
  | cancelSm (h : Header) (serviceType messageId : String)
      (sourceAddrTon sourceAddrNpi : Nat) (sourceAddr : String)
      (destAddrTon destAddrNpi : Nat) (destinationAddr : String)
  deriving DecidableEq, Repr

/-! Per-class `unpack` methods. -/

/-- `unpack` of the header-only classes (`EnquireLink`, `EnquireLinkResp`,
`Unbind`, `UnbindResp`, `GenericNack`). -/
def unpackHeaderOnly (cid : Nat) (bs : Bytes) : Except PyErr Header := do
  let (h, _) ← unpack_header cid bs
  .ok h

/-- `BindReceiver.unpack` / `BindTransmitter.unpack` / `BindTransceiver.unpack`
(they are verbatim copies of one another in the source). -/
def Bind.unpack (cid : Nat) (bs : Bytes) : Except PyErr Bind := do
  let (h, bs) ← unpack_header cid bs
  let (sid, bs) ← unpack_coctet_string bs
  let (pwd, bs) ← unpack_coctet_string bs
  let (syt, bs) ← unpack_coctet_string bs
  let ((iv, at', an), bs) ← unpack_fmtB3 bs
  let (ar, _) ← unpack_coctet_string bs
  .ok { commandStatus := h.commandStatus, sequenceNumber := h.sequenceNumber,
        systemId := sid, password := pwd, systemType := syt,
        interfaceVersion := iv, addrTon := at', addrNpi := an,
        addressRange := ar }

/-- `SubmitSm.unpack` (`src/smpp/parse.py:561`). -/
def SubmitSm.unpack (bs : Bytes) : Except PyErr SubmitSm := do
  let (h, bs) ← unpack_header CID_SUBMIT_SM bs
  let (st, bs) ← unpack_coctet_string bs
  let ((sdt, anp), bs) ← unpack_fmtB2 bs
  let (sa, bs) ← unpack_coctet_string bs
  let ((dat, dan), bs) ← unpack_fmtB2 bs
  let (da, bs) ← unpack_coctet_string bs
  let ((ec, pid, pf), bs) ← unpack_fmtB3 bs
  let (sdtime, bs) ← unpack_coctet_string bs
  let (vp, bs) ← unpack_coctet_string bs
  let ((rd, ripf, dc, smdi, sl), bs) ← unpack_fmtB5 bs
  let (sm, _) ← unpack_octet_string bs sl
  .ok { commandStatus := h.commandStatus, sequenceNumber := h.sequenceNumber,
        serviceType := st, sourceAddrTon := sdt, sourceAddrNpi := anp,
        sourceAddr := sa, destAddrTon := dat, destAddrNpi := dan,
        destinationAddr := da, esmClass := ec, protocolId := pid,
        priorityFlag := pf, scheduleDeliveryTime := sdtime,
        validityPeriod := vp, registeredDelivery := rd,
        replaceIfPresentFlag := ripf, dataCoding := dc,
        smDefaultMsgId := smdi, smLength := sl, shortMessage := sm }

/-- `DataSm.unpack`.  The source calls `pdu._unpack_header(bs)` but discards
the returned body slice (`bs` is never reassigned), so after the header
checks the body fields are parsed starting from the first byte of the
frame, header included. -/
def DataSm.unpack (bs : Bytes) : Except PyErr PDU := do
  let (h, _) ← unpack_header CID_DATA_SM bs
  let (st, bs1) ← unpack_coctet_string bs
  let ((sat, san), bs1) ← unpack_fmtB2 bs1
  let (sa, bs1) ← unpack_coctet_string bs1
  let ((dat, dan), bs1) ← unpack_fmtB2 bs1
  let (da, bs1) ← unpack_coctet_string bs1
  let ((ec, rd, dc), _) ← unpack_fmtB3 bs1
  .ok (.dataSm h st sat san sa dat dan da ec rd dc)

/-- `QuerySm.unpack`.  Same slip as `DataSm.unpack`: the header body slice
is discarded and the body fields are parsed from the start of the frame. -/
def QuerySm.unpack (bs : Bytes) : Except PyErr PDU := do
  let (h, _) ← unpack_header CID_QUERY_SM bs
  let (mid, bs1) ← unpack_coctet_string bs
  let ((sat, san), bs1) ← unpack_fmtB2 bs1
  let (sa, _) ← unpack_coctet_string bs1
  .ok (.querySm h mid sat san sa)

/-- `CancelSm.unpack` (this one threads the buffer correctly). -/
def CancelSm.unpack (bs : Bytes) : Except PyErr PDU := do
  let (h, bs) ← unpack_header CID_CANCEL_SM bs
  let (st, bs) ← unpack_coctet_string bs
  let (mid, bs) ← unpack_coctet_string bs
  let ((sat, san), bs) ← unpack_fmtB2 bs
  let (sa, bs) ← unpack_coctet_string bs
  let ((dat, dan), bs) ← unpack_fmtB2 bs
  let (da, _) ← unpack_coctet_string bs
  .ok (.cancelSm h st mid sat san sa dat dan da)

/-- `SubmitMulti.unpack`.  The assignment
`(pdu.number_of_dests), bs = _unpack_fmt('!B', bs)` stores the whole
1-tuple in `number_of_dests`, so the following `range(0, pdu.number_of_dests)`
raises `TypeError` whenever parsing reaches that point. -/
def SubmitMulti.unpack (bs : Bytes) : Except PyErr PDU := do
  let (_, bs) ← unpack_header CID_SUBMIT_MULTI bs
  let (_, bs) ← unpack_coctet_string bs
  let (_, bs) ← unpack_fmtB2 bs
  let (_, bs) ← unpack_coctet_string bs
  let (_, _) ← unpack_fmtB1 bs
  .error .typeError

/-- `ReplaceSm.unpack`.  The assignment
`(rd, sdmi, sl), bs = _unpack_fmt("!B", bs)` tries to unpack a 1-tuple into
three names and raises `ValueError` whenever parsing reaches that point. -/
def ReplaceSm.unpack (bs : Bytes) : Except PyErr PDU := do
  let (_, bs) ← unpack_header CID_REPLACE_SM bs
  let (_, bs) ← unpack_coctet_string bs
  let (_, bs) ← unpack_fmtB2 bs
  let (_, bs) ← unpack_coctet_string bs
  let (_, bs) ← unpack_coctet_string bs
  let (_, bs) ← unpack_coctet_string bs
  let (_, _) ← unpack_fmtB1 bs
  .error .valueError

/-- `parse.unpack_pdu` (`src/smpp/parse.py:1145`): reads the command id from
bytes 4..8 (`struct.unpack("!II", bs[:8])`, `struct.error` when fewer than
8 bytes), then dispatches through `_COMMAND_CLASSES`.

* `Command(cid)` raises a bare `ValueError` (not `UnpackingError`) when
  `cid` is not a member of the `Command` enum — modelled as `enumValueError`.
* The response classes (`Bind*Resp`, `SubmitSmResp`, `SubmitMultiResp`,
  `DeliverSmResp`, `DataSmResp`, `QuerySmResp`, `CancelSmResp`,
  `ReplaceSmResp`) do not override `PDU.unpack`, so dispatching to them
  raises `NotImplementedError`.
* `DeliverSm.unpack` calls `pdu._unpack_header()` with no argument and
  raises `TypeError` unconditionally. -/
def unpack_pdu (bs : Bytes) : Except PyErr PDU :=
  if bs.length < 8 then .error .structError
  else
    let cid := beVal ((bs.drop 4).take 4)
    if cid = CID_GENERIC_NACK then (unpackHeaderOnly cid bs).map .genericNack
    else if cid = CID_BIND_RECEIVER then (Bind.unpack cid bs).map .bindReceiver
    else if cid = CID_BIND_RECEIVER_RESP then .error .notImplementedError
    else if cid = CID_BIND_TRANSMITTER then (Bind.unpack cid bs).map .bindTransmitter
    else if cid = CID_BIND_TRANSMITTER_RESP then .error .notImplementedError
    else if cid = CID_QUERY_SM then QuerySm.unpack bs
    else if cid = CID_QUERY_SM_RESP then .error .notImplementedError
    else if cid = CID_SUBMIT_SM then (SubmitSm.unpack bs).map .submitSm
    else if cid = CID_SUBMIT_SM_RESP then .error .notImplementedError
    else if cid = CID_DELIVER_SM then .error .typeError
    else if cid = CID_DELIVER_SM_RESP then .error .notImplementedError
    else if cid = CID_UNBIND then (unpackHeaderOnly cid bs).map .unbind
    else if cid = CID_UNBIND_RESP then (unpackHeaderOnly cid bs).map .unbindResp
    else if cid = CID_REPLACE_SM then ReplaceSm.unpack bs
    else if cid = CID_REPLACE_SM_RESP then .error .notImplementedError
    else if cid = CID_CANCEL_SM then CancelSm.unpack bs
    else if cid = CID_CANCEL_SM_RESP then .error .notImplementedError
    else if cid = CID_BIND_TRANSCEIVER then (Bind.unpack cid bs).map .bindTransceiver
    else if cid = CID_BIND_TRANSCEIVER_RESP then .error .notImplementedError
    else if cid = CID_ENQUIRE_LINK then (unpackHeaderOnly cid bs).map .enquireLink
    else if cid = CID_ENQUIRE_LINK_RESP then (unpackHeaderOnly cid bs).map .enquireLinkResp
    else if cid = CID_SUBMIT_MULTI then SubmitMulti.unpack bs
    else if cid = CID_SUBMIT_MULTI_RESP then .error .notImplementedError
    else if cid = CID_DATA_SM then DataSm.unpack bs
    else if cid = CID_DATA_SM_RESP then .error .notImplementedError
    else .error .enumValueError

/-! Per-class `pack` methods. -/

/-- `pack` of the header-only classes: `command_length` is the constant 16. -/
def packHeaderOnly (cid : Nat) (h : Header) : Except PyErr Bytes :=
  pack_header 16 cid h

/-- `command_length` of the bind response classes. -/
def BindResp.commandLength (p : BindResp) : Nat := 16 + p.systemId.length + 1

/-- `BindReceiverResp.pack` / `BindTransmitterResp.pack` /
`BindTransceiverResp.pack`: header followed by `_pack_str(system_id, 16)`. -/
def BindResp.pack (cid : Nat) (p : BindResp) : Except PyErr Bytes := do
  let hd ← pack_header p.commandLength cid ⟨p.commandStatus, p.sequenceNumber⟩
  let sid ← pack_str p.systemId 16
  .ok (hd ++ sid)

/-- `SubmitSm.command_length` (`src/smpp/parse.py:515`). -/
def SubmitSm.commandLength (p : SubmitSm) : Nat :=
  16 + (p.serviceType.length + 1) + 1 + 1 + (p.sourceAddr.length + 1)
    + 1 + 1 + (p.destinationAddr.length + 1) + 1 + 1 + 1
    + (p.scheduleDeliveryTime.length + 1) + (p.validityPeriod.length + 1)
    + 1 + 1 + 1 + 1 + 1 + (p.shortMessage.length + 1)

/-- `SubmitSm.pack` (`src/smpp/parse.py:542`).  Beyond the `_pack_str`
`NameError`, the call `_pack_fmt("!BBBB", rd, ripf, dc, smdi, sl)` passes
five values for a four-slot format and would raise `PackingError` if it
were ever reached. -/
def SubmitSm.pack (p : SubmitSm) : Except PyErr Bytes := do
  let hd ← pack_header p.commandLength CID_SUBMIT_SM ⟨p.commandStatus, p.sequenceNumber⟩
  let st ← pack_str p.serviceType 6
  let f1 ← pack_fmtB 2 [p.sourceAddrTon, p.sourceAddrNpi]
  let sa ← pack_str p.sourceAddr 21
  let f2 ← pack_fmtB 2 [p.destAddrTon, p.destAddrNpi]
  let da ← pack_str p.destinationAddr 21
  let f3 ← pack_fmtB 3 [p.esmClass, p.protocolId, p.priorityFlag]
  let sdt ← pack_str p.scheduleDeliveryTime 17
  let vp ← pack_str p.validityPeriod 17
  let f4 ← pack_fmtB 4 [p.registeredDelivery, p.replaceIfPresentFlag,
    p.dataCoding, p.smDefaultMsgId, p.smLength]
  let sm ← pack_str p.shortMessage 254
  .ok (hd ++ st ++ f1 ++ sa ++ f2 ++ da ++ f3 ++ sdt ++ vp ++ f4 ++ sm)

/-- `SubmitSmResp.command_length`. -/
def SubmitSmResp.commandLength (p : SubmitSmResp) : Nat := 16 + p.messageId.length + 1

/-- `SubmitSmResp.pack`. -/
def SubmitSmResp.pack (p : SubmitSmResp) : Except PyErr Bytes := do
  let hd ← pack_header p.commandLength CID_SUBMIT_SM_RESP ⟨p.commandStatus, p.sequenceNumber⟩
  let mid ← pack_str p.messageId 65
  .ok (hd ++ mid)

/-- `DeliverSm` does not override `PDU.pack`, so packing a delivery-receipt
PDU raises `NotImplementedError` (`src/smpp/parse.py:123`). -/
def DeliverSm.pack (_p : DeliverSm) : Except PyErr Bytes :=
  .error .notImplementedError

/-! The messaging dispatcher (`src/smpp/messaging.py`). -/

/-- Modelled from the spec: the `DeliveryStatus` members that
`src/smpp/messaging.py` and the test corpus reference
(`OK`, `GENERIC_ERROR`, `AUTH_FAILED`, `NO_BALANCE`, `UNDELIVERABLE`,
`TRY_LATER`, spec §3 and §4.4).  The copy of
`src/smpp/external/base.py` in the tree declares a different member set
that does not include the names the dispatcher uses; the member set is
therefore taken from the spec's data model, which matches every caller. -/
inductive DeliveryStatus where
  | OK
  | GENERIC_ERROR
  | AUTH_FAILED
  | NO_BALANCE
  | UNDELIVERABLE
  | TRY_LATER
  deriving DecidableEq, Repr

/-- Modelled from the spec: `DeliveryStatus.should_retry`, which is called
by the dispatcher loop but not defined in the `base.py` copy in the tree.
Spec §4.4 step 5 makes `TRY_LATER` the only non-terminal status, and the
`TRY_LATER` comment in `base.py` says the same. -/
def DeliveryStatus.should_retry : DeliveryStatus → Bool
  | .TRY_LATER => true
  | _ => false

/-- `external.ShortMessage` (`src/smpp/external/base.py:3`). -/
structure ShortMessage where
  systemId : String
  password : String
  sourceAddrTon : Nat
  sourceAddrNpi : Nat
  sourceAddr : String
  destAddrTon : Nat
  destAddrNpi : Nat
  destinationAddr : String
  body : String
  deriving DecidableEq, Repr

/-- Modelled from the spec: the receipt `stat` constants
(`parse.RECEIPT_DELIVERED` etc.) that `_store_and_forward` assigns but
that are absent from the copy of `parse.py` in the tree.  The spec §4.2
table fixes the five distinct seven-letter tags; `UNKNOWN` is the SMPP
receipt state the code falls back to in its final `else` branch. -/
inductive ReceiptStat where
  | DELIVRD
  | UNDELIV
  | REJECTD
  | EXPIRED
  | UNKNOWN
  deriving DecidableEq, Repr

/-- The seven-letter tag of spec §4.2 for each receipt stat constant. -/
def ReceiptStat.text : ReceiptStat → String
  | .DELIVRD => "DELIVRD"
  | .UNDELIV => "UNDELIV"
  | .REJECTD => "REJECTD"
  | .EXPIRED => "EXPIRED"
  | .UNKNOWN => "UNKNOWN"

/-- Modelled from the spec: the `parse.DeliveryReceipt` record used by
`_store_and_forward`, absent from the copy of `parse.py` in the tree.
The dispatcher assigns `id`, `text`, `dlvrd`, `err` and `stat`; the
remaining fields carry the §4.2 format's other columns. -/
structure DeliveryReceipt where
  id : String := ""
  sub : String := "001"
  dlvrd : Nat := 0
  submitDate : String := ""
  doneDate : String := ""
  stat : ReceiptStat := .UNKNOWN
  err : Nat := 0
  text : String := ""
  deriving DecidableEq, Repr

/-- Modelled from the spec: `DeliveryReceipt.to_str`, producing the §4.2
receipt body
`id:<id> sub:<sub> dlvrd:<dlvrd> submit date:<d> done date:<d> stat:<STAT> err:<err> text:<first 20 bytes>`. -/
def DeliveryReceipt.to_str (dr : DeliveryReceipt) : String :=
  "id:" ++ dr.id ++ " sub:" ++ dr.sub ++ " dlvrd:" ++ toString dr.dlvrd ++
  " submit date:" ++ dr.submitDate ++ " done date:" ++ dr.doneDate ++
  " stat:" ++ dr.stat.text ++ " err:" ++ toString dr.err ++
  " text:" ++ (dr.text.take 20)

/-- Modelled from the spec: `parse.ESM_CLASS_RECEIPT_STORE_AND_FORWARD`,
the esm_class value the dispatcher stamps on receipts; §4.2 requires the
SMSC Delivery Receipt bit `0x04`. -/
def ESM_CLASS_RECEIPT_STORE_AND_FORWARD : Nat := 0x04

/-- Modelled from the spec: `parse.ESM_CLASS_MODE_MASK` — §4.4 step 2
decodes the messaging mode from `esm_class & 0x03`. -/
def ESM_CLASS_MODE_MASK : Nat := 0x03

/-- Modelled from the spec: `parse.ESM_CLASS_MODE_DEFAULT` (mode value 0). -/
def ESM_CLASS_MODE_DEFAULT : Nat := 0

/-- Modelled from the spec: `parse.ESM_CLASS_MODE_STORE_AND_FORWARD`
(mode value 3). -/
def ESM_CLASS_MODE_STORE_AND_FORWARD : Nat := 3

/-- Modelled from the spec: `parse.REGDEL_SMSC_RECEIPT_MASK` — §4.4 step 6
checks `registered_delivery & 0x03`. -/
def REGDEL_SMSC_RECEIPT_MASK : Nat := 0x03

/-- Modelled from the spec: `parse.REGDEL_SMSC_RECEIPT_REQUIRED`, the
masked value 1 ("receipt on success or failure"); the dispatcher emits a
receipt exactly when the masked field equals this constant, independently
of the delivery outcome, which matches value 1 of the §4.4 table. -/
def REGDEL_SMSC_RECEIPT_REQUIRED : Nat := 1

/-- One iteration's environment for the `while True` loop of
`Dispatcher._store_and_forward` (`src/smpp/messaging.py:96`): the outcome
of `await self.eprovider.deliver(sm)` (`.error` when the provider raises),
paired with the truth value of `datetime.now() < sm_validity_period` as it
would be evaluated in that iteration. -/
abbrev LoopTick := Except Unit (DeliveryStatus × Bool)

/-- The `while True` loop of `_store_and_forward`, run against a finite
schedule of iterations.  Result `.ok (some (final_status, expired))` means
the loop exited with those values of the two locals; `.ok none` means the
schedule was exhausted with the loop still running; `.error` propagates a
provider exception (there is no `try` in the dispatcher).

The source's exit conditions are, verbatim:
 * `if not status.should_retry(): final_status = status; break`
 * `if datetime.now() < sm_validity_period: expired = True; break`
so a retryable status exits with `expired = True` while the current time
is still *before* the validity deadline, and keeps looping once the
deadline has passed. -/
def safLoop : List LoopTick → Except PyErr (Option (Option DeliveryStatus × Bool))
  | [] => .ok none
  | .error () :: _ => .error .providerError
  | .ok (status, nowLtDeadline) :: rest =>
    if ¬ status.should_retry then .ok (some (some status, false))
    else if nowLtDeadline then .ok (some (none, true))
    else safLoop rest

/-- Lines 119–141 of `src/smpp/messaging.py`: the `DeliveryReceipt` the
dispatcher fills in after the loop, from the loop's `final_status` and
`expired` locals. -/
def mkDeliveryReceipt (messageId : String) (smBody : String)
    (finalStatus : Option DeliveryStatus) (expired : Bool) : DeliveryReceipt :=
  let dlvrd := if finalStatus = some .OK then 1 else 0
  let err := if finalStatus = some .OK then 0 else 1
  let stat : ReceiptStat :=
    if finalStatus = some .OK then .DELIVRD
    else if finalStatus = some .UNDELIVERABLE then .UNDELIV
    else if finalStatus = some .NO_BALANCE then .REJECTD
    else if finalStatus = some .AUTH_FAILED then .REJECTD
    else if expired then .EXPIRED
    else .UNKNOWN
  { id := messageId, text := smBody, dlvrd := dlvrd, err := err, stat := stat }

/-- Lines 109–145 of `src/smpp/messaging.py`: the `deliver_sm` receipt PDU
built after the loop — source and destination address triples swapped from
the submission, receipt esm_class, body from `DeliveryReceipt.to_str`. -/
def buildReceiptPdu (messageId : String) (smBody : String) (pdu : SubmitSm)
    (finalStatus : Option DeliveryStatus) (expired : Bool) : DeliverSm :=
  { esmClass := ESM_CLASS_RECEIPT_STORE_AND_FORWARD,
    serviceType := pdu.serviceType,
    sourceAddrTon := pdu.destAddrTon,
    sourceAddrNpi := pdu.destAddrNpi,
    sourceAddr := pdu.destinationAddr,
    destAddrTon := pdu.sourceAddrTon,
    destAddrNpi := pdu.sourceAddrNpi,
    destinationAddr := pdu.sourceAddr,
    shortMessage := (mkDeliveryReceipt messageId smBody finalStatus expired).to_str }

/-- `Dispatcher._store_and_forward` (`src/smpp/messaging.py:84`):
the retry loop followed by receipt construction.  `.ok none` when the
schedule ends with the loop still running. -/
def store_and_forward (messageId : String) (sm : ShortMessage) (pdu : SubmitSm)
    (sched : List LoopTick) : Except PyErr (Option DeliverSm) := do
  match ← safLoop sched with
  | none => .ok none
  | some (finalStatus, expired) =>
    .ok (some (buildReceiptPdu messageId sm.body pdu finalStatus expired))

/-- One PDU sent through the `ResponseSender`: `rs.send` goes to the
originating connection, `rs.send_to_rcv` fans out to the RECEIVER-mode
connections of the same system_id. -/
inductive Sent where
  | toConn (p : PDU)
  | toReceivers (p : PDU)
  deriving DecidableEq, Repr

/-- `Dispatcher._dispatch_submit_sm` (`src/smpp/messaging.py:147`):
builds the `ShortMessage`, checks the esm_class mode, sends
`submit_sm_resp`, runs store-and-forward, and fans the receipt out iff
`registered_delivery & REGDEL_SMSC_RECEIPT_MASK == REGDEL_SMSC_RECEIPT_REQUIRED`.
`messageId` stands for the `random`-generated id; the provider behaviour
is the `sched` argument.  Returns the sent PDUs in order (`.ok none` when
the retry loop outran the schedule). -/
def dispatch_submit_sm (systemId password : String) (pdu : SubmitSm)
    (messageId : String) (sched : List LoopTick) :
    Except PyErr (Option (List Sent)) := do
  let sm : ShortMessage :=
    { systemId := systemId, password := password,
      sourceAddrTon := pdu.sourceAddrTon, sourceAddrNpi := pdu.sourceAddrNpi,
      sourceAddr := pdu.sourceAddr, destAddrTon := pdu.destAddrTon,
      destAddrNpi := pdu.destAddrNpi, destinationAddr := pdu.destinationAddr,
      body := pdu.shortMessage }
  let msgMode := pdu.esmClass &&& ESM_CLASS_MODE_MASK
  if msgMode = ESM_CLASS_MODE_DEFAULT ∨ msgMode = ESM_CLASS_MODE_STORE_AND_FORWARD then
    let resp : SubmitSmResp := { messageId := messageId, sequenceNumber := pdu.sequenceNumber }
    let sent0 : List Sent := [.toConn (.submitSmResp resp)]
    match ← store_and_forward messageId sm pdu sched with
    | none => .ok none
    | some dsm =>
      let smscReceipt := pdu.registeredDelivery &&& REGDEL_SMSC_RECEIPT_MASK
      if smscReceipt = REGDEL_SMSC_RECEIPT_REQUIRED then
        .ok (some (sent0 ++ [.toReceivers (.deliverSm dsm)]))
      else
        .ok (some sent0)
  else
    let nack : Header := { sequenceNumber := pdu.sequenceNumber,
                           commandStatus := COMMAND_STATUS_ESME_RUNKNOWNERR }
    .ok (some [.toConn (.genericNack nack)])

/-- The `sequence_number` of a decoded PDU (`pdu.sequence_number`). -/
def PDU.sequenceNumber : PDU → Nat
  | .genericNack h | .enquireLink h | .enquireLinkResp h
  | .unbind h | .unbindResp h => h.sequenceNumber
  | .bindReceiver p | .bindTransmitter p | .bindTransceiver p => p.sequenceNumber
  | .bindReceiverResp p | .bindTransmitterResp p | .bindTransceiverResp p => p.sequenceNumber
  | .submitSm p => p.sequenceNumber
  | .submitSmResp p => p.sequenceNumber
  | .deliverSm p => p.sequenceNumber
  | .dataSm h .. | .querySm h .. | .cancelSm h .. => h.sequenceNumber

/-- Whether a decoded PDU's `command` is `Command.SUBMIT_SM`. -/
def PDU.isSubmitSm : PDU → Bool
  | .submitSm _ => true
  | _ => false

/-- `Dispatcher.receive` (`src/smpp/messaging.py:178`).  The body is a
plain `if`/`else` with **no** exception handling: `SUBMIT_SM` goes to
`_dispatch_submit_sm` (whose provider and sender calls can raise), and
every other command is answered with a `generic_nack` pushed through
`rs.send_to_rcv` (the receiver fan-out, not the originating connection). -/
def Dispatcher.receive (systemId password : String) (pdu : PDU)
    (messageId : String) (sched : List LoopTick) :
    Except PyErr (Option (List Sent)) :=
  match pdu with
  | .submitSm p => dispatch_submit_sm systemId password p messageId sched
  | other =>
    let nack : Header := { sequenceNumber := other.sequenceNumber,
                           commandStatus := COMMAND_STATUS_ESME_RUNKNOWNERR }
    .ok (some [.toReceivers (.genericNack nack)])

/-! The connection handler and registry (`src/smpp/server.py`). -/

/-- What `Server._on_client_connected` does with the result of one
`conn.read()` for a complete frame (`src/smpp/server.py:229`): a decoded
PDU goes to `_dispatch_pdu`; a `parse.UnpackingError` is answered with a
`generic_nack` (sequence 0, `ESME_RUNKNOWNERR`) and the read loop
continues; any other exception is not caught by the loop (only
`asyncio.IncompleteReadError` is handled, outside it), so the handler
task terminates with that exception. -/
inductive HandlerAction where
  | nackAndContinue (nack : Header)
  | dispatch (p : PDU)
  | crash (e : PyErr)
  deriving DecidableEq, Repr

/-- The per-frame behaviour of the read loop in
`Server._on_client_connected`. -/
def handleFrame (bs : Bytes) : HandlerAction :=
  match unpack_pdu bs with
  | .ok p => .dispatch p
  | .error .unpackingError =>
    .nackAndContinue { sequenceNumber := 0,
                       commandStatus := COMMAND_STATUS_ESME_RUNKNOWNERR }
  | .error e => .crash e

/-- The events on one connection that touch `Connection.last_seqnum`:
`recv s` is a successful `Connection.read` of a PDU whose
`sequence_number` is `s` (`src/smpp/server.py:45`), and `sendReceipt` is
one `Connection.send_new_seqnum` call, i.e. a server-originated
`deliver_sm` receipt fanned out to this RECEIVER connection
(`src/smpp/server.py:72`).  Response PDUs echo the request sequence and
do not touch the counter, and their sequence numbers are already recorded
by the `recv` of the request. -/
inductive ConnEvent where
  | recv (seq : Nat)
  | sendReceipt
  deriving DecidableEq, Repr

/-- `Connection.read`'s update of `last_seqnum`:
`if pdu.sequence_number > self.last_seqnum: self.last_seqnum = ...`. -/
def readUpdate (last seq : Nat) : Nat := if seq > last then seq else last

/-- Runs a trace of connection events from a given `last_seqnum`,
returning in order the sequence numbers used on the connection, each
tagged `true` when it was assigned by `send_new_seqnum` (a
server-originated receipt) and `false` when it arrived on a read. -/
def runUsed (last : Nat) : List ConnEvent → List (Bool × Nat)
  | [] => []
  | .recv s :: es => (false, s) :: runUsed (readUpdate last s) es
  | .sendReceipt :: es => (true, last + 1) :: runUsed (last + 1) es

/-- Connection identity (Python object identity of a `Connection`). -/
abbrev ConnId := Nat

/-- `server.Mode`. -/
inductive Mode where
  | UNBOUND
  | RECEIVER
  | TRANSMITTER
  | TRANSCEIVER
  deriving DecidableEq, Repr

/-- The bind-relevant part of a `Connection`: its mode and its
back-reference to the owning `Client` session (by system_id). -/
structure ConnState where
  mode : Mode := .UNBOUND
  client : Option String := none
  deriving DecidableEq, Repr

/-- `server.Client`: one session, with the bind-time password and the set
of bound connections (modelled as a duplicate-free list). -/
structure Client where
  password : String
  connections : List ConnId
  deriving DecidableEq, Repr

/-- `Server._clients`: the registry mapping system_ids to sessions
(modelled as an association list in insertion order). -/
structure ServerState where
  clients : List (String × Client)
  deriving DecidableEq, Repr

/-- `Server._unbind` (`src/smpp/server.py:140`): resets the connection to
UNBOUND with no session back-reference, removes it from every session's
connection set, and drops every session whose set is (or was already)
empty afterwards. -/
def Server.unbind (st : ServerState) (_c : ConnState) (cid : ConnId) :
    ServerState × ConnState :=
  let removed := st.clients.map
    (fun e => (e.1, { e.2 with connections := e.2.connections.filter (· ≠ cid) }))
  ({ clients := removed.filter (fun e => e.2.connections ≠ []) },
   { mode := .UNBOUND, client := none })

/-- `Server._bind` (`src/smpp/server.py:130`): unbind first, create the
session for `sid` if absent (storing the supplied password), attach the
connection, set its mode and back-reference. -/
def Server.bind (st : ServerState) (c : ConnState) (cid : ConnId) (m : Mode)
    (sid : String) (pwd : String) : ServerState × ConnState :=
  let (st1, _) := Server.unbind st c cid
  let st2 :=
    if st1.clients.any (fun e => e.1 = sid) then st1
    else { clients := st1.clients ++ [(sid, { password := pwd, connections := [] })] }
  let st3 : ServerState :=
    { clients := st2.clients.map (fun e =>
        if e.1 = sid then (e.1, { e.2 with connections := e.2.connections ++ [cid] })
        else e) }
  (st3, { mode := m, client := some sid })

/-- Which of the three bind commands a `do_bind` call handles. -/
inductive BindKind where
  | receiver
  | transmitter
  | transceiver
  deriving DecidableEq, Repr

/-- The bind mode that `Server.do_bind` assigns for each bind command. -/
def BindKind.mode : BindKind → Mode
  | .receiver => .RECEIVER
  | .transmitter => .TRANSMITTER
  | .transceiver => .TRANSCEIVER

/-- `Server.do_bind` (`src/smpp/server.py:163`) with a provider configured:
builds the response with the echoed sequence number and system_id, asks
the provider to authenticate (`isAuth` is its return value), and either
returns the `ESME_RINVPASWD` response without touching any state, or
performs `_bind` and returns the OK response.  The returned response is
of the same `bind_*_resp` kind as the request. -/
def Server.do_bind (st : ServerState) (c : ConnState) (cid : ConnId)
    (k : BindKind) (p : Bind) (isAuth : Bool) :
    ServerState × ConnState × BindResp :=
  let resp : BindResp := { commandStatus := 0,
                           sequenceNumber := p.sequenceNumber,
                           systemId := p.systemId }
  if isAuth then
    let (st', c') := Server.bind st c cid k.mode p.systemId p.password
    (st', c', resp)
  else
    (st, c, { resp with commandStatus := COMMAND_STATUS_ESME_RINVPASWD })

/-! Concrete wire frames used to evaluate the embedding, taken from the
repository's own test suite. -/

/-- The `enquire_link` frame of
`parse_tests.ParserTestCase.test_unpack_enquire_link`. -/
def enquireLinkFrame : Bytes :=
  [0, 0, 0, 16, 0, 0, 0, 0x15, 0, 0, 0, 0, 0, 0, 0, 1]

/-- The `bind_transmitter` frame of
`parse_tests.ParserTestCase.test_unpack_bind_transmitter`. -/
def bindTransmitterFrame : Bytes :=
  [0, 0, 0, 39, 0, 0, 0, 2, 0, 0, 0, 0, 0, 0, 0, 2,
   115, 121, 115, 95, 105, 100, 0, 112, 119, 100, 0, 116, 121, 112, 101, 0,
   52, 22, 43, 97, 100, 114, 0]

/-- The `submit_sm` frame of
`parse_tests.ParserTestCase.test_submit_sm_unpack`. -/
def submitSmFrame : Bytes :=
  [0, 0, 0, 59, 0, 0, 0, 4, 0, 0, 0, 0, 0, 0, 0, 1, 0, 0, 11, 56, 56, 48, 48,
   53, 53, 53, 51, 53, 51, 53, 0, 0, 0, 0, 1, 221, 1, 49, 49, 0, 49, 49, 0,
   23, 2, 1, 0, 11, 72, 101, 108, 108, 111, 32, 119, 111, 114, 108, 100]

/-- The `SubmitSm` value that `submitSmFrame` decodes to (the field values
asserted by `parse_tests.test_submit_sm_unpack`). -/
def submitSmFrameDecoded : SubmitSm :=
  { commandStatus := 0, sequenceNumber := 1, serviceType := "",
    sourceAddrTon := 0, sourceAddrNpi := 11, sourceAddr := "88005553535",
    destAddrTon := 0, destAddrNpi := 0, destinationAddr := "",
    esmClass := 1, protocolId := 221, priorityFlag := 1,
    scheduleDeliveryTime := "11", validityPeriod := "11",
    registeredDelivery := 23, replaceIfPresentFlag := 2, dataCoding := 1,
    smDefaultMsgId := 0, smLength := 11, shortMessage := "Hello world" }

/-- A well-formed 16-byte frame whose `command_id` `0x99` is not a member
of `parse.Command`. -/
def unknownCidFrame : Bytes :=
  [0, 0, 0, 16, 0, 0, 0, 0x99, 0, 0, 0, 0, 0, 0, 0, 7]

/-- A `bind_transmitter` frame whose declared length matches but whose
body is empty, so decoding fails with `UnpackingError` at the first
C-Octet String. -/
def truncatedBindFrame : Bytes :=
  [0, 0, 0, 16, 0, 0, 0, 2, 0, 0, 0, 0, 0, 0, 0, 1]

/-!
Validation of the embedding against the decode assertions of the
repository's own unit tests.
-/

/-- `parse_tests.test_unpack_enquire_link`: the frame decodes to an
`enquire_link` with status 0 and sequence 1. -/
theorem validate_enquire_link_decode :
    unpack_pdu enquireLinkFrame =
      .ok (.enquireLink { commandStatus := 0, sequenceNumber := 1 }) := by
  rfl

/-- `parse_tests.test_unpack_bind_transmitter`: the frame decodes to the
asserted field values. -/
theorem validate_bind_transmitter_decode :
    unpack_pdu bindTransmitterFrame =
      .ok (.bindTransmitter
        { commandStatus := 0, sequenceNumber := 2, systemId := "sys_id",
          password := "pwd", systemType := "type", interfaceVersion := 52,
          addrTon := 22, addrNpi := 43, addressRange := "adr" }) := by
  rfl

/-- `parse_tests.test_submit_sm_unpack`: the frame decodes to the asserted
field values. -/
theorem validate_submit_sm_decode :
    unpack_pdu submitSmFrame = .ok (.submitSm submitSmFrameDecoded) := by
  rfl

/-!
Claim theorems.
-/

/-- C1: the claim says the dispatcher keeps retrying a `TRY_LATER`
delivery while `now < validity_deadline` and exits with `expired = true`
exactly when `now ≥ validity_deadline`.  The loop in
`Dispatcher._store_and_forward` has the comparison inverted: a single
`TRY_LATER` result while the deadline has *not* passed makes it exit
immediately with `expired = true` and no final status, and when every
iteration sees `now ≥ validity_deadline` the loop never exits at all
(no schedule length suffices), so validity expiry does not bound the
retry loop. -/
theorem c1_validity_check_is_inverted :
    safLoop [.ok (.TRY_LATER, true)] = .ok (some (none, true)) ∧
    ∀ n : Nat, safLoop (List.replicate n (.ok (.TRY_LATER, false))) = .ok none := by
  refine ⟨rfl, ?_⟩
  intro n
  induction n with
  | zero => rfl
  | succ k ih =>
    simpa [List.replicate, safLoop, DeliveryStatus.should_retry] using ih

/-- C2: with `registered_delivery & 0x03 = 2` (receipt on failure only)
and a failing delivery (`UNDELIVERABLE`), the dispatcher sends only the
`submit_sm_resp` and never fans out a receipt, because
`_dispatch_submit_sm` emits a receipt only when the masked field equals
`REGDEL_SMSC_RECEIPT_REQUIRED = 1`; the claim (and the repository's
`functests.test_error_receipts`) requires a receipt here. -/
theorem c2_failure_only_receipt_never_emitted :
    226 &&& REGDEL_SMSC_RECEIPT_MASK = 2 ∧
    dispatch_submit_sm "mtc" "pwd"
        { esmClass := 3, registeredDelivery := 226, sequenceNumber := 5,
          shortMessage := "Hello world!" }
        "abcd1234" [.ok (.UNDELIVERABLE, false)] =
      .ok (some [.toConn (.submitSmResp
        { commandStatus := 0, sequenceNumber := 5, messageId := "abcd1234" })]) := by
  exact ⟨by decide, rfl⟩

/-- C3: the claim maps a final `GENERIC_ERROR` to receipt stat `EXPIRED`.
The `if`/`elif` chain of `_store_and_forward` has no `GENERIC_ERROR`
branch, and since `GENERIC_ERROR` is terminal the loop leaves
`expired = False`, so the receipt built for it carries the fallback stat
`UNKNOWN`, not `EXPIRED` (the repository's own
`functests.test_error_receipts` expects `EXPIRED`).  The `err` field is
1 here, as the claim states. -/
theorem c3_generic_error_maps_to_unknown_not_expired :
    (mkDeliveryReceipt "abcd1234" "Hello world!" (some .GENERIC_ERROR) false).stat
      = .UNKNOWN ∧
    ReceiptStat.UNKNOWN ≠ ReceiptStat.EXPIRED ∧
    (mkDeliveryReceipt "abcd1234" "Hello world!" (some .GENERIC_ERROR) false).err
      = 1 := by
  exact ⟨rfl, by decide, rfl⟩

/-- C4 counterexample: a well-formed 16-byte frame whose `command_id`
`0x99` is unknown.  `unpack_pdu` raises the bare `ValueError` of
`Command(cid)`, which the read loop's `except parse.UnpackingError` does
not catch: the handler terminates with the exception instead of sending
the `generic_nack` the claim requires. -/
theorem c4_unknown_command_id_kills_handler :
    unpack_pdu unknownCidFrame = .error .enumValueError ∧
    handleFrame unknownCidFrame = .crash .enumValueError ∧
    handleFrame unknownCidFrame ≠
      .nackAndContinue { sequenceNumber := 0,
                         commandStatus := COMMAND_STATUS_ESME_RUNKNOWNERR } := by
  refine ⟨rfl, rfl, ?_⟩
  intro h
  exact absurd (rfl.trans h) (by decide)

/-- C4 (amended): for every received frame whose decoding fails with
`parse.UnpackingError` (declared length disagreeing with the buffer,
missing C-Octet String terminator, short fixed-integer reads), the
server answers with a `generic_nack` with sequence 0 and
`ESME_RUNKNOWNERR` and continues the read loop; a frame with an unknown
`command_id` instead raises an uncaught `ValueError` that terminates the
handler. -/
theorem c4_unpacking_error_is_nacked_and_loop_continues (bs : Bytes)
    (h : unpack_pdu bs = .error .unpackingError) :
    handleFrame bs =
      .nackAndContinue { sequenceNumber := 0,
                         commandStatus := COMMAND_STATUS_ESME_RUNKNOWNERR } := by
  unfold handleFrame
  rw [h]

/-- C4 witness: the truncated bind frame decodes with `UnpackingError` and
is answered with the sequence-0 `generic_nack`. -/
theorem c4_unpacking_error_witness :
    unpack_pdu truncatedBindFrame = .error .unpackingError ∧
    handleFrame truncatedBindFrame =
      .nackAndContinue { sequenceNumber := 0,
                         commandStatus := COMMAND_STATUS_ESME_RUNKNOWNERR } :=
  ⟨by rfl, c4_unpacking_error_is_nacked_and_loop_continues truncatedBindFrame (by rfl)⟩

/-- C5: `Dispatcher.receive` contains no exception handling, so an
exception raised by `provider.deliver` during a `submit_sm` dispatch
propagates to the connection handler instead of being converted into a
`generic_nack`; this contradicts the claim (and the method's own
docstring, which guarantees that no exception is ever thrown). -/
theorem c5_provider_exception_propagates_from_receive :
    Dispatcher.receive "mtc" "pwd"
        (.submitSm { esmClass := 3, sequenceNumber := 5 })
        "abcd1234" [.error ()] =
      .error .providerError := by
  rfl

/-- C6: the `submit_sm` frame from the repository's own parser tests
decodes successfully, but re-encoding the decoded PDU raises `NameError`
(the undefined name `st` in `parse._pack_str`), so
`encode(decode(encode(p))) = encode(p)` cannot hold for the supported
command set: `encode` is not even defined on decoded `submit_sm` values. -/
theorem c6_decoded_submit_sm_cannot_be_reencoded :
    unpack_pdu submitSmFrame = .ok (.submitSm submitSmFrameDecoded) ∧
    SubmitSm.pack submitSmFrameDecoded = .error .nameError := by
  exact ⟨rfl, rfl⟩

/-- C7: a bind response whose `system_id` has length 15 does not encode:
`_pack_str` raises `NameError` (undefined name `st`) before its length
check, so every PDU with a C-Octet String field fails to encode
regardless of field sizes — in particular the claimed in-bounds cases
fail, and no `EncodingError`-on-overflow behaviour is reachable.  The
surviving length logic of `_pack_str` (modelled as `pack_str_rest`)
would accept the 15-character `system_id`, as the claim expects. -/
theorem c7_system_id_of_length_15_fails_to_encode :
    ("123456789012345" : String).length = 15 ∧
    BindResp.pack CID_BIND_TRANSMITTER_RESP
        { commandStatus := 0, sequenceNumber := 1,
          systemId := "123456789012345" } =
      .error .nameError ∧
    pack_str_rest "123456789012345" 16 =
      .ok (encodeAscii "123456789012345" ++ [0]) := by
  exact ⟨rfl, rfl, rfl⟩

/-- C8: every delivery-receipt `deliver_sm` built by
`Dispatcher._store_and_forward` swaps the source and destination address
triples of the originating `submit_sm`, carries the formatted receipt
text as its body, and has `esm_class = 0x04` (the SMSC Delivery Receipt
bit). -/
theorem c8_receipt_pdu_swaps_addresses_and_sets_receipt_bit
    (messageId smBody : String) (pdu : SubmitSm)
    (finalStatus : Option DeliveryStatus) (expired : Bool) :
    (buildReceiptPdu messageId smBody pdu finalStatus expired).sourceAddrTon
        = pdu.destAddrTon ∧
    (buildReceiptPdu messageId smBody pdu finalStatus expired).sourceAddrNpi
        = pdu.destAddrNpi ∧
    (buildReceiptPdu messageId smBody pdu finalStatus expired).sourceAddr
        = pdu.destinationAddr ∧
    (buildReceiptPdu messageId smBody pdu finalStatus expired).destAddrTon
        = pdu.sourceAddrTon ∧
    (buildReceiptPdu messageId smBody pdu finalStatus expired).destAddrNpi
        = pdu.sourceAddrNpi ∧
    (buildReceiptPdu messageId smBody pdu finalStatus expired).destinationAddr
        = pdu.sourceAddr ∧
    (buildReceiptPdu messageId smBody pdu finalStatus expired).esmClass = 0x04 ∧
    (buildReceiptPdu messageId smBody pdu finalStatus expired).esmClass &&& 0x04 ≠ 0 ∧
    (buildReceiptPdu messageId smBody pdu finalStatus expired).shortMessage
        = (mkDeliveryReceipt messageId smBody finalStatus expired).to_str := by
  refine ⟨rfl, rfl, rfl, rfl, rfl, rfl, rfl, ?_, rfl⟩
  show (0x04 : Nat) &&& 0x04 ≠ 0
  decide

/-- `Connection.read` never decreases `last_seqnum`. -/
theorem readUpdate_ge_left (last s : Nat) : last ≤ readUpdate last s := by
  unfold readUpdate
  split <;> omega

/-- After a read, `last_seqnum` is at least the sequence number just read. -/
theorem readUpdate_ge_right (last s : Nat) : s ≤ readUpdate last s := by
  unfold readUpdate
  split <;> omega

/-- Every sequence number assigned by `send_new_seqnum` in the rest of a
trace exceeds any bound that the current `last_seqnum` dominates. -/
theorem runUsed_outbound_gt (es : List ConnEvent) :
    ∀ last m, m ≤ last → ∀ x ∈ runUsed last es, x.1 = true → m < x.2 := by
  induction es with
  | nil =>
    intro last m _ x hx
    simp [runUsed] at hx
  | cons e t ih =>
    intro last m hm x hx hout
    cases e with
    | recv s =>
      rcases List.mem_cons.mp (by simpa [runUsed] using hx) with h | h
      · rw [h] at hout
        simp at hout
      · exact ih (readUpdate last s) m (le_trans hm (readUpdate_ge_left last s)) x h hout
    | sendReceipt =>
      rcases List.mem_cons.mp (by simpa [runUsed] using hx) with h | h
      · subst h
        simpa using Nat.lt_succ_of_le hm
      · exact ih (last + 1) m (le_trans hm (Nat.le_succ last)) x h hout

/-- From any starting `last_seqnum`, every sequence number used later on
the connection is dominated by each later `send_new_seqnum` assignment. -/
theorem runUsed_pairwise (es : List ConnEvent) :
    ∀ last, List.Pairwise (fun x y => y.1 = true → x.2 < y.2) (runUsed last es) := by
  induction es with
  | nil =>
    intro last
    simp [runUsed]
  | cons e t ih =>
    intro last
    cases e with
    | recv s =>
      rw [runUsed]
      refine List.Pairwise.cons ?_ (ih (readUpdate last s))
      intro y hy hout
      exact runUsed_outbound_gt t (readUpdate last s) s (readUpdate_ge_right last s) y hy hout
    | sendReceipt =>
      rw [runUsed]
      refine List.Pairwise.cons ?_ (ih (last + 1))
      intro y hy hout
      exact runUsed_outbound_gt t (last + 1) (last + 1) le_rfl y hy hout

/-- C9: on any trace of reads and receipt sends on one connection
(starting from the initial `last_seqnum = 0`), every sequence number that
`send_new_seqnum` stamps on a server-originated receipt is strictly
greater than every sequence number used earlier on that connection
(whether read or assigned); in particular the outbound sequence numbers
are strictly increasing. -/
theorem c9_outbound_sequence_numbers_strictly_increase (events : List ConnEvent) :
    List.Pairwise (fun x y => y.1 = true → x.2 < y.2) (runUsed 0 events) :=
  runUsed_pairwise events 0

/-- C10: when provider authentication fails (`authenticate` returns
`False`), `Server.do_bind` returns with the session registry, the
connection's mode and its session back-reference all exactly as they
were, and the only output is the bind response carrying the echoed
sequence number, the echoed system_id, and status `ESME_RINVPASWD`. -/
theorem c10_failed_auth_leaves_registry_and_connection_unchanged
    (st : ServerState) (c : ConnState) (cid : ConnId) (k : BindKind) (p : Bind) :
    Server.do_bind st c cid k p false =
      (st, c, { commandStatus := COMMAND_STATUS_ESME_RINVPASWD,
                sequenceNumber := p.sequenceNumber,
                systemId := p.systemId }) := by
  rfl

end Smpp

